import Mathlib

/-!
Verification development for the wingmark scoped web crawler.

The definitions below are a shallow embedding of the TypeScript sources:
  - `src/utils/url.ts`        (`checkIsValidChildUrl`)
  - `src/lib/browser.ts`      (`Browser.scrape`, `Browser.crawl`,
                               `Browser.extractLinks`, `Browser.ensureBrowser`,
                               `Browser.ensureBrowserAlarm`, `Browser.alarm`)
  - `src/http/index.ts`       (the `POST /scrape` handler)
  - `src/index.ts`            (the queue handler, `wingmark-callbacks` branch)

JavaScript strings are modelled as Lean `String`s; the string operations
used by the sources (`startsWith`, `endsWith`, `slice`, `.length`) are
reimplemented on `List Char`, which coincides with the JS UTF-16 semantics
on the ASCII inputs (URLs) the crawler manipulates.  Effectful code is
modelled by explicit state passing over `DOState` plus an effect trace;
fallible steps return `Except`/`Option`.
-/

namespace Wingmark

/-- JS `s.startsWith(p)`. -/
def jsStartsWith (s p : String) : Bool :=
  List.isPrefixOf p.toList s.toList

/-- JS `s.endsWith(p)`. -/
def jsEndsWith (s p : String) : Bool :=
  List.isSuffixOf p.toList s.toList

/-- JS `s.slice(n)` (drop the first `n` UTF-16 units; chars, for ASCII). -/
def jsDrop (s : String) (n : Nat) : String :=
  String.mk (s.toList.drop n)

/-- JS `s.length` (UTF-16 units; chars, for ASCII). -/
def jsLength (s : String) : Nat :=
  s.toList.length

/-- JS truthiness of a `string | null` value: `null` and `""` are falsy. -/
def jsTruthy : Option String → Bool
  | none => false
  | some s => !(s == "")

/-- The components of a parsed URL that the sources consult
(`URL.pathname`, `URL.hash`, plus scheme/host/search for completeness). -/
structure URLParts where
  scheme : String
  host : String
  pathname : String
  search : String
  hash : String
deriving Repr, DecidableEq

/-- Split a character list at the first occurrence of `"://"`. -/
def schemeSplit : List Char → Option (List Char × List Char)
  | [] => none
  | ':' :: '/' :: '/' :: r => some ([], r)
  | c :: r =>
    match schemeSplit r with
    | some (a, b) => some (c :: a, b)
    | none => none

/-- Take characters until the predicate holds, returning the span and the rest. -/
def spanUntil (stop : Char → Bool) : List Char → List Char × List Char
  | [] => ([], [])
  | c :: r =>
    if stop c then ([], c :: r)
    else
      let (a, b) := spanUntil stop r
      (c :: a, b)

def isHostEnd (c : Char) : Bool := c == '/' || c == '?' || c == '#'

def isPathEnd (c : Char) : Bool := c == '?' || c == '#'

/-- Model of the WHATWG `new URL(s)` constructor on the absolute
`scheme://host[/path][?search][#hash]` URLs this crawler manipulates:
it yields `pathname` (defaulting to `"/"`), `search` and `hash` (with their
leading delimiter, `""` when absent), and fails (`none`, the constructor
throw) when the string has no `scheme://host` shape. -/
def parseURL (s : String) : Option URLParts :=
  match schemeSplit s.toList with
  | none => none
  | some (sch, rest) =>
    if sch.isEmpty || !sch.all Char.isAlpha then none
    else
      let (host, r1) := spanUntil isHostEnd rest
      if host.isEmpty then none
      else
        let (path, r2) :=
          match r1 with
          | '/' :: _ => spanUntil isPathEnd r1
          | _ => (['/'], r1)
        let (srch, r3) :=
          match r2 with
          | '?' :: _ => spanUntil (fun c => c == '#') r2
          | _ => ([], r2)
        some ⟨String.mk sch, String.mk host, String.mk path,
              String.mk srch, String.mk r3⟩

/-- Function `checkIsValidChildUrl` from `src/utils/url.ts`:
both URLs are parsed first (a constructor throw is modelled as `none`),
then the boolean conjunction of the source is evaluated. -/
def checkIsValidChildUrl (parent child : String) : Option Bool :=
  match parseURL parent, parseURL child with
  | some pu, some cu =>
    some (jsStartsWith child parent
      && !(jsStartsWith (jsDrop child (jsLength parent)) "#")
      && !(jsEndsWith child "/")
      && jsStartsWith cu.pathname pu.pathname
      && (cu.pathname != pu.pathname))
  | _, _ => none

/-- A `CrawlTask` / frontier queue message (`CRAWLER` binding):
`{currentUrl, originalUrl, currentDepth, maxDepth, limit, callback, detailed?}`. -/
structure CrawlTask where
  currentUrl : String
  originalUrl : String
  currentDepth : Nat
  maxDepth : Nat
  limit : Nat
  callback : String
  detailed : Bool
deriving Repr, DecidableEq

/-- A callback queue message.  The declared wire type
(`CALLBACKS: Queue<\x7bcallback, url\x7d>` in the generated bindings) has the
fields `callback` and `url`; the delivery worker additionally dereferences a
`markdown` field.  Both are modelled as optional so that an absent field is
JS `undefined` (`none`). -/
structure CallbackMsg where
  callback : String
  url : Option String
  markdown : Option String
deriving Repr, DecidableEq

/-- One KV cache entry: key, value and absolute expiration instant
(`put` with `expirationTtl` seconds sets `expiresAt := now + ttl`). -/
structure CacheEntry where
  key : String
  value : String
  expiresAt : Nat
deriving Repr, DecidableEq

/-- KV `CACHE.get`: the stored value when a fresh (unexpired) entry exists. -/
def cacheGet (c : List CacheEntry) (now : Nat) (key : String) : Option String :=
  match c.find? (fun e => e.key == key) with
  | some e => if now < e.expiresAt then some e.value else none
  | none => none

/-- KV `CACHE.put` with `expirationTtl` seconds: overwrite-on-put. -/
def cachePut (c : List CacheEntry) (now : Nat) (key value : String) (ttl : Nat) :
    List CacheEntry :=
  ⟨key, value, now + ttl⟩ :: c.filter (fun e => e.key != key)

/-- The mutable state of the `Browser` durable object: the KV cache it
writes through, the `keptAliveInSeconds` idle counter, the single storage
alarm slot (`none` = no alarm scheduled), and whether a connected renderer
handle is held. -/
structure DOState where
  cache : List CacheEntry
  keptAliveInSeconds : Nat
  alarm : Option Nat
  browserConnected : Bool
deriving Repr, DecidableEq

/-- The external collaborators of one crawl step, as deterministic oracles:
`render url` is `page.goto(url, networkidle0)` followed by `page.content()`
(`none` = navigation failure), `hrefs url` the resolved anchor targets on
the rendered page, `extract html detailed` is `getMarkdown` (`none` =
`ReadabilityError`), `launchOk k` whether the `k`-th `puppeteer.launch`
attempt succeeds, and `cachePutOk` whether `CACHE.put` succeeds. -/
structure Env where
  render : String → Option String
  hrefs : String → List String
  extract : String → Bool → Option String
  launchOk : Nat → Bool
  cachePutOk : Bool

/-- The ways a scrape/crawl invocation can throw. -/
inductive CrawlErr where
  | browserError
  | navigationFailed
  | readabilityError
  | cachePutError
deriving Repr, DecidableEq

def MAX_RETRIES : Nat := 3

def KEEP_BROWSER_ALIVE_IN_SECONDS : Nat := 60

def TEN_SECONDS : Nat := 10 * 1000

/-- The `while (retries < this.MAX_RETRIES)` launch loop of
`Browser.ensureBrowser`, run with `fuel = MAX_RETRIES - retries`.
Returns (success, number of launch attempts made, the backoff waits
`1000 * (retries + 1)` performed after each failed attempt, in order). -/
def launchAttempts (launchOk : Nat → Bool) : Nat → Nat → Bool × Nat × List Nat
  | 0, _ => (false, 0, [])
  | fuel + 1, retries =>
    if launchOk retries then (true, 1, [])
    else
      let r := launchAttempts launchOk fuel (retries + 1)
      (r.1, r.2.1 + 1, 1000 * (retries + 1) :: r.2.2)

/-- Model of `Browser.ensureBrowser`: return the live handle when connected,
otherwise launch with up to `MAX_RETRIES` attempts.  Returns
(success, post-state, attempts, backoffs); `false` means the final
`throw new BrowserError()` was reached. -/
def ensureBrowser (launchOk : Nat → Bool) (st : DOState) :
    Bool × DOState × Nat × List Nat :=
  if st.browserConnected then (true, st, 0, [])
  else
    let r := launchAttempts launchOk MAX_RETRIES 0
    (r.1, if r.1 then { st with browserConnected := true } else st, r.2)

/-- Model of `Browser.ensureBrowserAlarm`: arm a `+10s` alarm only when none is
scheduled. -/
def ensureBrowserAlarm (st : DOState) (now : Nat) : DOState :=
  match st.alarm with
  | some _ => st
  | none => { st with alarm := some (now + TEN_SECONDS) }

/-- Model of `Browser.ensureKeepAlive`: reset the idle counter. -/
def ensureKeepAlive (st : DOState) : DOState :=
  { st with keptAliveInSeconds := 0 }

/-- The `alarm()` handler of the durable object.  The runtime consumes the
scheduled alarm when it fires, so the handler starts with an empty alarm
slot; it adds 10 to the idle counter, reschedules while below the
keep-alive bound, and otherwise closes the browser handle (when one is
held) without rescheduling. -/
def alarm (st : DOState) (now : Nat) : DOState :=
  let k := st.keptAliveInSeconds + 10
  if k < KEEP_BROWSER_ALIVE_IN_SECONDS then
    { st with keptAliveInSeconds := k, alarm := some (now + TEN_SECONDS) }
  else
    { st with keptAliveInSeconds := k, alarm := none, browserConnected := false }

/-- The `finally` block shared by `Browser.scrape` and `Browser.crawl`:
`page.close()` (recorded in the trace by the callers), `ensureKeepAlive()`,
`ensureBrowserAlarm()`. -/
def finallyBlock (st : DOState) (now : Nat) : DOState :=
  ensureBrowserAlarm (ensureKeepAlive st) now

/-- JS `Set.add` on an insertion-ordered list: a no-op when the element is
already present. -/
def jsSetAdd (acc : List String) (x : String) : List String :=
  if x ∈ acc then acc else acc ++ [x]

/-- The scan loop of `Browser.extractLinks`: JS `Set` insertion over the
anchors, skipping hrefs that do not `startsWith` the scope url, breaking
as soon as the set size reaches `limit`. -/
def extractLinksGo (url : String) (limit : Nat) :
    List String → List String → List String
  | [], links => links
  | href :: rest, links =>
    if !(jsStartsWith href url) then extractLinksGo url limit rest links
    else
      let links2 := jsSetAdd links href
      if limit ≤ links2.length then links2
      else extractLinksGo url limit rest links2

/-- The same scan without the `limit` break: what `extractLinks` computes
when the cap is never reached. -/
def jsSetFold (url : String) : List String → List String → List String
  | [], acc => acc
  | href :: rest, acc =>
    if jsStartsWith href url then jsSetFold url rest (jsSetAdd acc href)
    else jsSetFold url rest acc

/-- Model of `Browser.extractLinks`: the retained child links for a page whose
anchors resolve to `hrefs`, scoped by `url` and capped at `limit`. -/
def extractLinks (hrefs : List String) (url : String) (limit : Nat) :
    List String :=
  extractLinksGo url limit hrefs []

/-- Effect trace of one `Browser.scrape` invocation. -/
structure ScrapeTrace where
  fetches : Nat
  pageOpened : Bool
  pageClosed : Bool
deriving Repr, DecidableEq

/-- Model of `Browser.scrape(url, detailed)`: ensure a browser, reset the idle
counter, open a page and run the try/finally body: navigate, read the
content, extract markdown, write the cache entry (TTL one hour) and return
the markdown; any throw propagates after the finally block runs. -/
def scrape (env : Env) (st0 : DOState) (now : Nat) (url : String)
    (detailed : Bool) : Except CrawlErr String × DOState × ScrapeTrace :=
  match ensureBrowser env.launchOk st0 with
  | (false, st1, _, _) => (.error .browserError, st1, ⟨0, false, false⟩)
  | (true, st1, _, _) =>
    let st2 := ensureKeepAlive st1
    let (result, st3) :=
      match env.render url with
      | none => (Except.error CrawlErr.navigationFailed, st2)
      | some html =>
        match env.extract html detailed with
        | none => (Except.error CrawlErr.readabilityError, st2)
        | some markdown =>
          if env.cachePutOk then
            (Except.ok markdown,
             { st2 with
                cache := cachePut st2.cache now ("scrape:" ++ url) markdown (60 * 60) })
          else (Except.error CrawlErr.cachePutError, st2)
    (result, finallyBlock st3 now, ⟨1, true, true⟩)

/-- Effect trace of one `Browser.crawl` invocation. -/
structure CrawlEffects where
  fetches : Nat
  childTasks : List CrawlTask
  cacheWrites : Nat
  callbacks : List CallbackMsg
  pageOpened : Bool
  pageClosed : Bool
deriving Repr, DecidableEq

/-- Model of `Browser.crawl(task)`: depth guard, idle reset, browser acquisition,
then the try/finally body: navigate, extract and enqueue child tasks at
`currentDepth + 1`, resolve the markdown cache-aside (get, else extract
and put with TTL one hour), and enqueue one `\x7bcallback, url\x7d` callback
message; any throw propagates after the finally block runs. -/
def crawl (env : Env) (st0 : DOState) (now : Nat) (t : CrawlTask) :
    Except CrawlErr Unit × DOState × CrawlEffects :=
  if t.currentDepth > t.maxDepth then
    (.ok (), st0, ⟨0, [], 0, [], false, false⟩)
  else
    let st1 := ensureKeepAlive st0
    match ensureBrowser env.launchOk st1 with
    | (false, st2, _, _) => (.error .browserError, st2, ⟨0, [], 0, [], false, false⟩)
    | (true, st2, _, _) =>
      match env.render t.currentUrl with
      | none =>
        (.error .navigationFailed, finallyBlock st2 now, ⟨1, [], 0, [], true, true⟩)
      | some html =>
        let links := extractLinks (env.hrefs t.currentUrl) t.originalUrl t.limit
        let children := links.map fun link =>
          { t with currentUrl := link, currentDepth := t.currentDepth + 1 }
        if jsTruthy (cacheGet st2.cache now ("scrape:" ++ t.currentUrl)) then
          (.ok (), finallyBlock st2 now,
           ⟨1, children, 0, [⟨t.callback, some t.currentUrl, none⟩], true, true⟩)
        else
          match env.extract html t.detailed with
          | none =>
            (.error .readabilityError, finallyBlock st2 now,
             ⟨1, children, 0, [], true, true⟩)
          | some markdown =>
            if env.cachePutOk then
              let st3 := { st2 with
                cache := cachePut st2.cache now ("scrape:" ++ t.currentUrl) markdown (60 * 60) }
              (.ok (), finallyBlock st3 now,
               ⟨1, children, 1, [⟨t.callback, some t.currentUrl, none⟩], true, true⟩)
            else
              (.error .cachePutError, finallyBlock st2 now,
               ⟨1, children, 0, [], true, true⟩)

/-- Responses of the `POST /scrape` HTTP handler. -/
inductive ScrapeResp where
  | ok (body : String)
  | serverError
  | raised (e : CrawlErr)
deriving Repr, DecidableEq

/-- The `POST /scrape` handler from `src/http/index.ts`: when the cache is
enabled and holds a truthy entry, answer from the cache without touching
the browser; otherwise call `Browser.scrape` and answer 200 with the
markdown, 500 when it is falsy, propagating any throw. -/
def scrapeHandler (env : Env) (st : DOState) (now : Nat) (url : String)
    (cacheEnabled detailed : Bool) : ScrapeResp × DOState × ScrapeTrace :=
  let cached := if cacheEnabled then cacheGet st.cache now ("scrape:" ++ url) else none
  if jsTruthy cached then
    (.ok (cached.getD ""), st, ⟨0, false, false⟩)
  else
    match scrape env st now url detailed with
    | (.error e, st2, tr) => (.raised e, st2, tr)
    | (.ok markdown, st2, tr) =>
      (if markdown == "" then .serverError else .ok markdown, st2, tr)

/-- The HTTP POST request descriptor built by the callback delivery worker. -/
structure PostRequest where
  url : String
  body : Option String
  retry : Nat
deriving Repr, DecidableEq

/-- The `wingmark-callbacks` branch of the queue handler in
`src/index.ts`: `ky.post(body.callback, \x7b body: body.markdown, retry: 3 \x7d)`.
It performs no cache access; the second component counts the cache lookups
the branch performs, which is 0 by the source. -/
def postToCallback (msg : CallbackMsg) : PostRequest × Nat :=
  (⟨msg.callback, msg.markdown, 3⟩, 0)

/-- The amended scope characterization of `checkIsValidChildUrl`: both URLs
parse, `child` character-extends `parent` with the extension not beginning
with `#`, `child` has no trailing slash, and `child`'s pathname strictly
character-extends `parent`'s pathname.  (Same-origin holds only to the
extent the raw string prefix implies it, and a fragment is rejected only
when it starts immediately after the parent prefix.) -/
def checkIsValidChildUrlSpec (parent child : String) : Prop :=
  (∃ pu cu, parseURL parent = some pu ∧ parseURL child = some cu
    ∧ jsStartsWith cu.pathname pu.pathname = true ∧ cu.pathname ≠ pu.pathname)
  ∧ jsStartsWith child parent = true
  ∧ jsStartsWith (jsDrop child (jsLength parent)) "#" = false
  ∧ jsEndsWith child "/" = false

/-- A durable-object state with a connected renderer and empty cache. -/
def demoState : DOState :=
  { cache := [], keptAliveInSeconds := 0, alarm := none, browserConnected := true }

/-- A durable-object state with no renderer handle. -/
def disconnectedState : DOState :=
  { cache := [], keptAliveInSeconds := 0, alarm := none, browserConnected := false }

/-- A seed crawl task within its depth budget. -/
def demoTask : CrawlTask :=
  { currentUrl := "https://a.test", originalUrl := "https://a.test",
    currentDepth := 0, maxDepth := 2, limit := 2,
    callback := "https://cb.test", detailed := false }

/-- A crawl task past its depth budget. -/
def deepTask : CrawlTask :=
  { demoTask with currentDepth := 3, maxDepth := 2 }

/-- A durable-object state that has been idle for 50 seconds with a pending
alarm. -/
def idleState : DOState :=
  { cache := [], keptAliveInSeconds := 50, alarm := some 7, browserConnected := true }

/-- Collaborators that all succeed; the page carries three in-scope anchors
(one repeated) and one out-of-scope anchor. -/
def crawlOkEnv : Env :=
  { render := fun _ => some "<html><body><p>hello world</p></body></html>"
    hrefs := fun _ => ["https://a.test/p1", "https://a.test/p2",
                       "https://b.test/x", "https://a.test/p1"]
    extract := fun _ _ => some "ARTICLE"
    launchOk := fun _ => true
    cachePutOk := true }

/-- Collaborators where only the cache write fails. -/
def putFailEnv : Env :=
  { crawlOkEnv with cachePutOk := false }

/-- Collaborators where every renderer launch attempt fails. -/
def noLaunchEnv : Env :=
  { crawlOkEnv with launchOk := fun _ => false }

example : checkIsValidChildUrl "https://example.com" "https://example.com/path/to/page" = some true := by decide

example : checkIsValidChildUrl "https://example.com/path/to/page" "https://example.com/path/to/page" = some false := by decide

example : checkIsValidChildUrl "https://example.com" "https://example.com/page#frag" = some true := by decide

example : parseURL "https://example.com/page#frag" = some ⟨"https", "example.com", "/page", "", "#frag"⟩ := by decide

example : parseURL "/subpath" = none := by decide

theorem jsSetAdd_mem (acc : List String) (x l : String) :
    l ∈ jsSetAdd acc x ↔ l ∈ acc ∨ l = x := by
  unfold jsSetAdd
  split
  · rename_i hx
    constructor
    · exact fun h => Or.inl h
    · rintro (h | rfl)
      · exact h
      · exact hx
  · simp [List.mem_append]

theorem jsSetAdd_nodup {acc : List String} (h : acc.Nodup) (x : String) :
    (jsSetAdd acc x).Nodup := by
  unfold jsSetAdd
  split
  · exact h
  · rename_i hx
    simp [List.nodup_append, h, hx]

theorem jsSetAdd_length_le (acc : List String) (x : String) :
    (jsSetAdd acc x).length ≤ acc.length + 1 := by
  unfold jsSetAdd
  split <;> simp

theorem length_le_jsSetAdd (acc : List String) (x : String) :
    acc.length ≤ (jsSetAdd acc x).length := by
  unfold jsSetAdd
  split <;> simp

theorem extractLinksGo_sound (url : String) (limit : Nat) (hrefs : List String) :
    ∀ (acc : List String) (l : String),
      l ∈ extractLinksGo url limit hrefs acc →
      l ∈ acc ∨ (l ∈ hrefs ∧ jsStartsWith l url = true) := by
  induction hrefs with
  | nil =>
    intro acc l h
    exact Or.inl (by simpa [extractLinksGo] using h)
  | cons href rest ih =>
    intro acc l h
    simp only [extractLinksGo] at h
    split at h
    · rcases ih acc l h with h1 | ⟨h2, h3⟩
      · exact Or.inl h1
      · exact Or.inr ⟨List.mem_cons_of_mem _ h2, h3⟩
    · rename_i hpass
      have hp : jsStartsWith href url = true := by simpa using hpass
      split at h
      · rcases (jsSetAdd_mem acc href l).1 h with h1 | rfl
        · exact Or.inl h1
        · exact Or.inr ⟨List.mem_cons_self _ _, hp⟩
      · rcases ih (jsSetAdd acc href) l h with h1 | ⟨h2, h3⟩
        · rcases (jsSetAdd_mem acc href l).1 h1 with h4 | rfl
          · exact Or.inl h4
          · exact Or.inr ⟨List.mem_cons_self _ _, hp⟩
        · exact Or.inr ⟨List.mem_cons_of_mem _ h2, h3⟩

theorem extractLinksGo_nodup (url : String) (limit : Nat) (hrefs : List String) :
    ∀ acc : List String, acc.Nodup → (extractLinksGo url limit hrefs acc).Nodup := by
  induction hrefs with
  | nil =>
    intro acc h
    simpa [extractLinksGo] using h
  | cons href rest ih =>
    intro acc h
    simp only [extractLinksGo]
    split
    · exact ih acc h
    · split
      · exact jsSetAdd_nodup h href
      · exact ih _ (jsSetAdd_nodup h href)

theorem extractLinksGo_length (url : String) (limit : Nat) (hrefs : List String) :
    ∀ acc : List String, acc.length < limit →
      (extractLinksGo url limit hrefs acc).length ≤ limit := by
  induction hrefs with
  | nil =>
    intro acc h
    simpa [extractLinksGo] using Nat.le_of_lt h
  | cons href rest ih =>
    intro acc h
    simp only [extractLinksGo]
    split
    · exact ih acc h
    · split
      · exact le_trans (jsSetAdd_length_le acc href) h
      · rename_i hno
        exact ih _ (Nat.lt_of_not_le hno)

theorem jsSetFold_mem (url : String) (hrefs : List String) :
    ∀ (acc : List String) (l : String),
      l ∈ jsSetFold url hrefs acc ↔
        l ∈ acc ∨ (l ∈ hrefs ∧ jsStartsWith l url = true) := by
  induction hrefs with
  | nil =>
    intro acc l
    simp [jsSetFold]
  | cons href rest ih =>
    intro acc l
    simp only [jsSetFold]
    split
    · rename_i hp
      rw [ih, jsSetAdd_mem]
      constructor
      · rintro ((h1 | rfl) | ⟨h2, h3⟩)
        · exact Or.inl h1
        · exact Or.inr ⟨List.mem_cons_self _ _, hp⟩
        · exact Or.inr ⟨List.mem_cons_of_mem _ h2, h3⟩
      · rintro (h1 | ⟨h2, h3⟩)
        · exact Or.inl (Or.inl h1)
        · rcases List.mem_cons.1 h2 with rfl | h4
          · exact Or.inl (Or.inr rfl)
          · exact Or.inr ⟨h4, h3⟩
    · rename_i hp
      rw [ih]
      constructor
      · rintro (h1 | ⟨h2, h3⟩)
        · exact Or.inl h1
        · exact Or.inr ⟨List.mem_cons_of_mem _ h2, h3⟩
      · rintro (h1 | ⟨h2, h3⟩)
        · exact Or.inl h1
        · rcases List.mem_cons.1 h2 with rfl | h4
          · exact absurd h3 (by simpa using hp)
          · exact Or.inr ⟨h4, h3⟩

theorem jsSetFold_length_mono (url : String) (hrefs : List String) :
    ∀ acc : List String, acc.length ≤ (jsSetFold url hrefs acc).length := by
  induction hrefs with
  | nil =>
    intro acc
    simp [jsSetFold]
  | cons href rest ih =>
    intro acc
    simp only [jsSetFold]
    split
    · exact le_trans (length_le_jsSetAdd acc href) (ih _)
    · exact ih acc

theorem jsSetFold_length_le (url : String) (hrefs : List String) :
    ∀ acc : List String,
      (jsSetFold url hrefs acc).length ≤
        acc.length + (hrefs.filter (fun x => jsStartsWith x url)).length := by
  induction hrefs with
  | nil =>
    intro acc
    simp [jsSetFold]
  | cons href rest ih =>
    intro acc
    simp only [jsSetFold, List.filter_cons]
    split
    · have h1 := ih (jsSetAdd acc href)
      have h2 := jsSetAdd_length_le acc href
      simp only [List.length_cons]
      omega
    · exact ih acc

theorem extractLinksGo_eq_jsSetFold (url : String) (limit : Nat)
    (hrefs : List String) :
    ∀ acc : List String, (jsSetFold url hrefs acc).length < limit →
      extractLinksGo url limit hrefs acc = jsSetFold url hrefs acc := by
  induction hrefs with
  | nil =>
    intro acc _
    simp [extractLinksGo, jsSetFold]
  | cons href rest ih =>
    intro acc h
    by_cases hp : jsStartsWith href url = true
    · have h2 : (jsSetFold url rest (jsSetAdd acc href)).length < limit := by
        simpa [jsSetFold, hp] using h
      have hlen : (jsSetAdd acc href).length < limit :=
        lt_of_le_of_lt (jsSetFold_length_mono url rest _) h2
      have hnle : ¬ limit ≤ (jsSetAdd acc href).length := Nat.not_le.2 hlen
      simp [extractLinksGo, jsSetFold, hp, hnle]
      exact ih _ h2
    · have hp2 : jsStartsWith href url = false := by simpa using hp
      have h2 : (jsSetFold url rest acc).length < limit := by
        simpa [jsSetFold, hp2] using h
      simp [extractLinksGo, jsSetFold, hp2]
      exact ih acc h2

/-- C3 (corrected).  During one crawl step the retained child links are
exactly the anchor hrefs whose raw string starts with `originalUrl` (not
the full ScopeRule): every retained href comes from the page and passes
that string-prefix test, and when the cap is not reached (fewer passing
hrefs than `limit`) a href is retained iff it occurs on the page and
passes the string-prefix test. -/
theorem extractLinks_characterization (hrefs : List String) (url : String)
    (limit : Nat) :
    (∀ l, l ∈ extractLinks hrefs url limit →
      l ∈ hrefs ∧ jsStartsWith l url = true)
    ∧ ((hrefs.filter (fun x => jsStartsWith x url)).length < limit →
      ∀ l, l ∈ extractLinks hrefs url limit ↔
        l ∈ hrefs ∧ jsStartsWith l url = true) := by
  constructor
  · intro l h
    rcases extractLinksGo_sound url limit hrefs [] l h with h1 | h2
    · simp at h1
    · exact h2
  · intro hcap l
    have hlen : (jsSetFold url hrefs []).length < limit :=
      lt_of_le_of_lt (by simpa using jsSetFold_length_le url hrefs []) hcap
    rw [extractLinks, extractLinksGo_eq_jsSetFold url limit hrefs [] hlen,
      jsSetFold_mem]
    simp

/-- Witness for C3's amended theorem at a concrete page. -/
theorem extractLinks_characterization_witness :
    ("https://a.test/p1" ∈ (["https://a.test/p1"] : List String)
      ∧ jsStartsWith "https://a.test/p1" "https://a.test" = true)
    ∧ ("https://a.test/p1" ∈ extractLinks ["https://a.test/p1"] "https://a.test" 5 ↔
      "https://a.test/p1" ∈ (["https://a.test/p1"] : List String)
        ∧ jsStartsWith "https://a.test/p1" "https://a.test" = true) :=
  ⟨(extractLinks_characterization ["https://a.test/p1"] "https://a.test" 5).1
      "https://a.test/p1" (by decide),
   (extractLinks_characterization ["https://a.test/p1"] "https://a.test" 5).2
      (by decide) "https://a.test/p1"⟩

/-- C3 counterexample: `extractLinks` retains the page's own URL (an href
equal to `originalUrl`), which fails the ScopeRule — its path does not
strictly extend the origin path, as `checkIsValidChildUrl` itself decides. -/
theorem extractLinks_scope_counterexample :
    extractLinks ["https://a.test"] "https://a.test" 10 = ["https://a.test"]
    ∧ checkIsValidChildUrl "https://a.test" "https://a.test" = some false := by
  decide

/-- C2 (corrected).  `checkIsValidChildUrl` returns `true` exactly when both
URLs parse, the child string-extends the parent with the extension not
beginning with `#`, the child has no trailing slash, and the child's
pathname strictly character-extends the parent's; the four concrete cases
of the claim all hold.  (The original "same origin and no fragment" iff
fails: see the fragment counterexample.) -/
theorem checkIsValidChildUrl_characterization :
    (∀ p c, checkIsValidChildUrl p c = some true ↔ checkIsValidChildUrlSpec p c)
    ∧ checkIsValidChildUrl "https://example.com"
        "https://example.com/path/to/page" = some true
    ∧ checkIsValidChildUrl "https://example.com/path/to/page"
        "https://example.com/path/to/page" = some false
    ∧ checkIsValidChildUrl "https://example.com/path/to/page"
        "https://example.com/path/to/page#hash" = some false
    ∧ checkIsValidChildUrl "https://example.com/path/to/page#hash"
        "https://example.com/path/to/page" = some false
    ∧ checkIsValidChildUrl "https://example.com/path/to/page"
        "https://example.com/path/to/page/" = some false
    ∧ checkIsValidChildUrl "https://example.com/path/to/page/"
        "https://example.com/path/to/page" = some false := by
  refine ⟨?_, by decide, by decide, by decide, by decide, by decide, by decide⟩
  intro p c
  constructor
  · intro h
    cases hp : parseURL p with
    | none => simp [checkIsValidChildUrl, hp] at h
    | some pu =>
      cases hc : parseURL c with
      | none => simp [checkIsValidChildUrl, hp, hc] at h
      | some cu =>
        simp only [checkIsValidChildUrl, hp, hc, Option.some.injEq,
          Bool.and_eq_true, Bool.not_eq_true', bne_iff_ne] at h
        obtain ⟨⟨⟨⟨h1, h2⟩, h3⟩, h4⟩, h5⟩ := h
        exact ⟨⟨pu, cu, hp, hc, h4, h5⟩, h1, h2, h3⟩
  · rintro ⟨⟨pu, cu, hp, hc, h4, h5⟩, h1, h2, h3⟩
    simp only [checkIsValidChildUrl, hp, hc, Option.some.injEq,
      Bool.and_eq_true, Bool.not_eq_true', bne_iff_ne]
    exact ⟨⟨⟨⟨h1, h2⟩, h3⟩, h4⟩, h5⟩

/-- C2 counterexample: a child sharing the parent's origin and strictly
extending its path but carrying a fragment is accepted, so "child has no
fragment" is not a necessary condition for a `true` result. -/
theorem checkIsValidChildUrl_fragment_counterexample :
    checkIsValidChildUrl "https://example.com"
      "https://example.com/page#frag" = some true
    ∧ (parseURL "https://example.com/page#frag").map URLParts.hash =
        some "#frag" := by
  decide

/-- C1 (confirmed).  A crawl task whose `currentDepth` exceeds `maxDepth`
returns immediately with the state untouched and an all-empty effect trace
(no fetch, no child task, no cache write, no callback, no page), while a
task with `currentDepth ≤ maxDepth` passes the guard and is processed
(with a connected renderer the page fetch happens). -/
theorem crawl_depth_guard (env : Env) (st : DOState) (now : Nat) (t : CrawlTask) :
    (t.maxDepth < t.currentDepth →
      crawl env st now t = (Except.ok (), st, ⟨0, [], 0, [], false, false⟩))
    ∧ (t.currentDepth ≤ t.maxDepth → st.browserConnected = true →
      (crawl env st now t).2.2.pageOpened = true
      ∧ (crawl env st now t).2.2.fetches = 1) := by
  constructor
  · intro h
    unfold crawl
    rw [if_pos h]
  · intro h hb
    unfold crawl
    rw [if_neg (by omega)]
    have hens : ensureBrowser env.launchOk (ensureKeepAlive st) =
        (true, ensureKeepAlive st, 0, []) := by
      unfold ensureBrowser ensureKeepAlive
      simp [hb]
    simp only [hens]
    cases hr : env.render t.currentUrl with
    | none => simp [hr]
    | some html =>
      simp only [hr]
      split
      · simp
      · split
        · simp
        · split <;> simp

/-- Witness for C1 at concrete tasks on both sides of the depth boundary. -/
theorem crawl_depth_guard_witness :
    crawl crawlOkEnv demoState 0 deepTask =
      (Except.ok (), demoState, ⟨0, [], 0, [], false, false⟩)
    ∧ ((crawl crawlOkEnv demoState 0 demoTask).2.2.pageOpened = true
      ∧ (crawl crawlOkEnv demoState 0 demoTask).2.2.fetches = 1) :=
  ⟨(crawl_depth_guard crawlOkEnv demoState 0 deepTask).1 (by decide),
   (crawl_depth_guard crawlOkEnv demoState 0 demoTask).2 (by decide) (by decide)⟩

/-- C4 (confirmed, for the positive limits the dispatcher admits).  Per
processed page at most `limit` child tasks are enqueued, and their URLs
are pairwise distinct (the JS `Set` removes duplicates before fan-out). -/
theorem crawl_fanout_bound (env : Env) (st : DOState) (now : Nat) (t : CrawlTask)
    (h : 1 ≤ t.limit) :
    (crawl env st now t).2.2.childTasks.length ≤ t.limit
    ∧ ((crawl env st now t).2.2.childTasks.map CrawlTask.currentUrl).Nodup := by
  have hlen : (extractLinksGo t.originalUrl t.limit (env.hrefs t.currentUrl) []).length
      ≤ t.limit :=
    extractLinksGo_length _ _ _ [] (by simpa using h)
  have hnd : (extractLinksGo t.originalUrl t.limit (env.hrefs t.currentUrl) []).Nodup :=
    extractLinksGo_nodup _ _ _ [] (by simp)
  unfold crawl
  split
  · simp
  · rcases hE : ensureBrowser env.launchOk (ensureKeepAlive st) with ⟨b, st2, a, bs⟩
    cases b
    · simp [hE]
    · simp only [hE]
      repeat' split
      all_goals simp [extractLinks, List.map_map, Function.comp_def, hlen, hnd]

/-- Witness for C4 at a concrete page with a repeated in-scope anchor and a
limit of 2. -/
theorem crawl_fanout_bound_witness :
    (crawl crawlOkEnv demoState 0 demoTask).2.2.childTasks.length ≤ demoTask.limit
    ∧ ((crawl crawlOkEnv demoState 0 demoTask).2.2.childTasks.map
        CrawlTask.currentUrl).Nodup :=
  crawl_fanout_bound crawlOkEnv demoState 0 demoTask (by decide)

theorem launchAttempts_le (f : Nat → Bool) :
    ∀ (fuel r : Nat), (launchAttempts f fuel r).2.1 ≤ fuel := by
  intro fuel
  induction fuel with
  | zero => intro r; simp [launchAttempts]
  | succ n ih =>
    intro r
    simp only [launchAttempts]
    split
    · simp
    · have := ih (r + 1)
      simp only []
      omega

/-- C5 (confirmed).  `ensureBrowser` never makes more than `MAX_RETRIES = 3`
launch attempts; when the browser is disconnected and every launch attempt
fails it makes exactly 3 attempts, waits the strictly increasing backoffs
1000·1, 1000·2, 1000·3 ms after them, leaves the state unchanged and ends
in the `BrowserError` throw, which `scrape` surfaces unretried. -/
theorem ensureBrowser_retry_exhaustion :
    (∀ (f : Nat → Bool) (st : DOState), (ensureBrowser f st).2.2.1 ≤ MAX_RETRIES)
    ∧ (∀ (env : Env) (st : DOState) (now : Nat) (url : String) (d : Bool),
      st.browserConnected = false →
      (∀ k, k < MAX_RETRIES → env.launchOk k = false) →
      ensureBrowser env.launchOk st = (false, st, 3, [1000, 2000, 3000])
      ∧ List.Chain' (· < ·) (ensureBrowser env.launchOk st).2.2.2
      ∧ (scrape env st now url d).1 = Except.error CrawlErr.browserError) := by
  constructor
  · intro f st
    unfold ensureBrowser
    split
    · simp [MAX_RETRIES]
    · simpa using launchAttempts_le f MAX_RETRIES 0
  · intro env st now url d hb hf
    have h0 : env.launchOk 0 = false := hf 0 (by decide)
    have h1 : env.launchOk 1 = false := hf 1 (by decide)
    have h2 : env.launchOk 2 = false := hf 2 (by decide)
    have hla : launchAttempts env.launchOk MAX_RETRIES 0 =
        (false, 3, [1000, 2000, 3000]) := by
      simp [launchAttempts, MAX_RETRIES, h0, h1, h2]
    have hens : ensureBrowser env.launchOk st = (false, st, 3, [1000, 2000, 3000]) := by
      unfold ensureBrowser
      rw [if_neg (by simp [hb])]
      simp [hla]
    refine ⟨hens, ?_, ?_⟩
    · rw [hens]
      show List.Chain' (· < ·) [1000, 2000, 3000]
      norm_num [List.chain'_cons]
    · unfold scrape
      rw [hens]

/-- Witness for C5: a disconnected actor whose every launch attempt fails. -/
theorem ensureBrowser_retry_exhaustion_witness :
    ensureBrowser noLaunchEnv.launchOk disconnectedState =
      (false, disconnectedState, 3, [1000, 2000, 3000])
    ∧ List.Chain' (· < ·) (ensureBrowser noLaunchEnv.launchOk disconnectedState).2.2.2
    ∧ (scrape noLaunchEnv disconnectedState 0 "https://a.test" false).1 =
        Except.error CrawlErr.browserError :=
  ensureBrowser_retry_exhaustion.2 noLaunchEnv disconnectedState 0 "https://a.test"
    false (by decide) (fun _ _ => rfl)

/-- C6 (confirmed).  Each alarm firing adds 10 seconds to the idle counter;
below the 60-second bound it reschedules a `+10s` alarm and leaves the
renderer untouched, at or above the bound it closes the renderer handle
and does not reschedule; and `ensureBrowserAlarm` arms a timer only when
none is pending (so pending idle timers never stack). -/
theorem alarm_idle_lifecycle (st : DOState) (now : Nat) :
    (alarm st now).keptAliveInSeconds = st.keptAliveInSeconds + 10
    ∧ (st.keptAliveInSeconds + 10 < KEEP_BROWSER_ALIVE_IN_SECONDS →
        (alarm st now).alarm = some (now + TEN_SECONDS)
        ∧ (alarm st now).browserConnected = st.browserConnected)
    ∧ (KEEP_BROWSER_ALIVE_IN_SECONDS ≤ st.keptAliveInSeconds + 10 →
        (alarm st now).browserConnected = false ∧ (alarm st now).alarm = none)
    ∧ (∀ a, st.alarm = some a → ensureBrowserAlarm st now = st)
    ∧ (st.alarm = none →
        (ensureBrowserAlarm st now).alarm = some (now + TEN_SECONDS)) := by
  refine ⟨?_, ?_, ?_, ?_, ?_⟩
  · simp only [alarm]
    split <;> simp
  · intro h
    simp only [alarm]
    rw [if_pos h]
    simp
  · intro h
    simp only [alarm]
    rw [if_neg (by omega)]
    simp
  · intro a ha
    simp [ensureBrowserAlarm, ha]
  · intro h
    simp [ensureBrowserAlarm, h]

/-- Witness for C6 on both sides of the 60-second bound and of the
arm-if-absent check. -/
theorem alarm_idle_lifecycle_witness :
    ((alarm demoState 5).alarm = some (5 + TEN_SECONDS)
      ∧ (alarm demoState 5).browserConnected = demoState.browserConnected)
    ∧ ((alarm idleState 5).browserConnected = false
      ∧ (alarm idleState 5).alarm = none)
    ∧ ensureBrowserAlarm idleState 5 = idleState
    ∧ (ensureBrowserAlarm demoState 5).alarm = some (5 + TEN_SECONDS) :=
  ⟨(alarm_idle_lifecycle demoState 5).2.1 (by decide),
   (alarm_idle_lifecycle idleState 5).2.2.1 (by decide),
   (alarm_idle_lifecycle idleState 5).2.2.2.1 7 (by decide),
   (alarm_idle_lifecycle demoState 5).2.2.2.2 (by decide)⟩

theorem finallyBlock_cache (s : DOState) (now : Nat) :
    (finallyBlock s now).cache = s.cache := by
  cases h : s.alarm <;>
    simp [finallyBlock, ensureBrowserAlarm, ensureKeepAlive, h]

theorem finallyBlock_keptAlive (s : DOState) (now : Nat) :
    (finallyBlock s now).keptAliveInSeconds = 0 := by
  cases h : s.alarm <;>
    simp [finallyBlock, ensureBrowserAlarm, ensureKeepAlive, h]

theorem finallyBlock_alarm_ne (s : DOState) (now : Nat) :
    (finallyBlock s now).alarm ≠ none := by
  cases h : s.alarm <;>
    simp [finallyBlock, ensureBrowserAlarm, ensureKeepAlive, h]

theorem cacheGet_cachePut_fresh (c : List CacheEntry) (t1 t2 : Nat)
    (key v : String) (ttl : Nat) (h : t2 < t1 + ttl) :
    cacheGet (cachePut c t1 key v ttl) t2 key = some v := by
  simp [cacheGet, cachePut, List.find?, h]

theorem scrapeHandler_cache_hit (env : Env) (st : DOState) (now : Nat)
    (url m : String) (d : Bool) (hm2 : (m == "") = false)
    (hget : cacheGet st.cache now ("scrape:" ++ url) = some m) :
    scrapeHandler env st now url true d =
      (ScrapeResp.ok m, st, ⟨0, false, false⟩) := by
  unfold scrapeHandler
  simp [hget, jsTruthy, hm2]

/-- C10 (confirmed).  Whenever `scrape`, or a `crawl` invocation that passed
the depth guard, opens a page, every exit path — success, navigation
failure, `ReadabilityError`, cache-write failure — closes that page, resets
the idle counter to 0 and leaves an idle alarm armed. -/
theorem page_closed_on_all_paths (env : Env) (st : DOState) (now : Nat)
    (url : String) (d : Bool) (t : CrawlTask) :
    ((scrape env st now url d).2.2.pageOpened = true →
      (scrape env st now url d).2.2.pageClosed = true
      ∧ (scrape env st now url d).2.1.keptAliveInSeconds = 0
      ∧ (scrape env st now url d).2.1.alarm ≠ none)
    ∧ ((crawl env st now t).2.2.pageOpened = true →
      (crawl env st now t).2.2.pageClosed = true
      ∧ (crawl env st now t).2.1.keptAliveInSeconds = 0
      ∧ (crawl env st now t).2.1.alarm ≠ none) := by
  constructor
  · unfold scrape
    rcases hE : ensureBrowser env.launchOk st with ⟨b, st1, a, bs⟩
    cases b
    · intro hpo
      simp at hpo
    · repeat' split
      all_goals intro hpo
      all_goals
        simp_all [finallyBlock_keptAlive, finallyBlock_alarm_ne]
  · unfold crawl
    split
    · intro hpo
      simp at hpo
    · rcases hE : ensureBrowser env.launchOk (ensureKeepAlive st) with ⟨b, st2, a, bs⟩
      cases b
      · intro hpo
        simp [hE] at hpo
      · simp only [hE]
        repeat' split
        all_goals intro hpo
        all_goals
          simp_all [finallyBlock_keptAlive, finallyBlock_alarm_ne]

/-- Witness for C10 on a run of each operation that opens a page. -/
theorem page_closed_on_all_paths_witness :
    ((scrape crawlOkEnv demoState 0 "https://a.test" false).2.2.pageClosed = true
      ∧ (scrape crawlOkEnv demoState 0 "https://a.test" false).2.1.keptAliveInSeconds = 0
      ∧ (scrape crawlOkEnv demoState 0 "https://a.test" false).2.1.alarm ≠ none)
    ∧ ((crawl crawlOkEnv demoState 0 demoTask).2.2.pageClosed = true
      ∧ (crawl crawlOkEnv demoState 0 demoTask).2.1.keptAliveInSeconds = 0
      ∧ (crawl crawlOkEnv demoState 0 demoTask).2.1.alarm ≠ none) :=
  ⟨(page_closed_on_all_paths crawlOkEnv demoState 0 "https://a.test" false demoTask).1
      (by decide),
   (page_closed_on_all_paths crawlOkEnv demoState 0 "https://a.test" false demoTask).2
      (by decide)⟩

/-- C7 (confirmed).  With caching enabled and no fresh entry yet, a scrape
followed by a second scrape of the same URL within the one-hour TTL
returns the same artifact both times, and the second request performs no
renderer fetch. -/
theorem scrape_cache_idempotent (env : Env) (st : DOState) (t1 t2 : Nat)
    (url html m : String) (d : Bool)
    (hb : st.browserConnected = true)
    (hr : env.render url = some html)
    (he : env.extract html d = some m)
    (hm : m ≠ "")
    (hp : env.cachePutOk = true)
    (hc : jsTruthy (cacheGet st.cache t1 ("scrape:" ++ url)) = false)
    (ht2 : t2 < t1 + 60 * 60) :
    (scrapeHandler env st t1 url true d).1 = ScrapeResp.ok m
    ∧ (scrapeHandler env (scrapeHandler env st t1 url true d).2.1 t2 url true d).1 =
        ScrapeResp.ok m
    ∧ (scrapeHandler env (scrapeHandler env st t1 url true d).2.1 t2 url true d).2.2.fetches = 0 := by
  have hm2 : (m == "") = false := beq_eq_false_iff_ne.mpr hm
  have hens : ensureBrowser env.launchOk st = (true, st, 0, []) := by
    unfold ensureBrowser
    rw [if_pos hb]
  have hscrape : scrape env st t1 url d =
      (Except.ok m,
       finallyBlock
         { ensureKeepAlive st with
             cache := cachePut (ensureKeepAlive st).cache t1 ("scrape:" ++ url) m (60 * 60) } t1,
       ⟨1, true, true⟩) := by
    unfold scrape
    rw [hens]
    simp [hr, he, hp]
  have h1 : scrapeHandler env st t1 url true d =
      (ScrapeResp.ok m,
       finallyBlock
         { ensureKeepAlive st with
             cache := cachePut (ensureKeepAlive st).cache t1 ("scrape:" ++ url) m (60 * 60) } t1,
       ⟨1, true, true⟩) := by
    unfold scrapeHandler
    simp [hc, hscrape, hm2]
  have hget2 : cacheGet (scrapeHandler env st t1 url true d).2.1.cache t2
      ("scrape:" ++ url) = some m := by
    rw [h1]
    show cacheGet (finallyBlock _ t1).cache t2 _ = some m
    rw [finallyBlock_cache]
    exact cacheGet_cachePut_fresh _ t1 t2 _ m (60 * 60) ht2
  refine ⟨by rw [h1], ?_, ?_⟩ <;>
    rw [scrapeHandler_cache_hit env _ t2 url m d hm2 hget2]

/-- Witness for C7: two scrapes of the same URL 1000 seconds apart. -/
theorem scrape_cache_idempotent_witness :
    (scrapeHandler crawlOkEnv demoState 0 "https://a.test" true false).1 =
      ScrapeResp.ok "ARTICLE"
    ∧ (scrapeHandler crawlOkEnv
        (scrapeHandler crawlOkEnv demoState 0 "https://a.test" true false).2.1
        1000 "https://a.test" true false).1 = ScrapeResp.ok "ARTICLE"
    ∧ (scrapeHandler crawlOkEnv
        (scrapeHandler crawlOkEnv demoState 0 "https://a.test" true false).2.1
        1000 "https://a.test" true false).2.2.fetches = 0 :=
  scrape_cache_idempotent crawlOkEnv demoState 0 1000 "https://a.test"
    "<html><body><p>hello world</p></body></html>" "ARTICLE" false
    rfl rfl rfl (by decide) rfl (by decide) (by decide)

/-- C9 (corrected).  A cache-write failure after a successful extraction
aborts the task: the error propagates out of `scrape` (no artifact is
returned) and out of `crawl` (no callback task is emitted); only the
`finally` cleanup still runs. -/
theorem cache_put_failure_aborts (env : Env) (st : DOState) (now : Nat)
    (url html m : String) (d : Bool) (t : CrawlTask)
    (hp : env.cachePutOk = false)
    (hb : st.browserConnected = true)
    (hr : env.render url = some html)
    (he : env.extract html d = some m)
    (hrt : env.render t.currentUrl = some html)
    (het : env.extract html t.detailed = some m)
    (hd : t.currentDepth ≤ t.maxDepth)
    (hct : jsTruthy (cacheGet st.cache now ("scrape:" ++ t.currentUrl)) = false) :
    (scrape env st now url d).1 = Except.error CrawlErr.cachePutError
    ∧ (scrape env st now url d).2.2.pageClosed = true
    ∧ (crawl env st now t).1 = Except.error CrawlErr.cachePutError
    ∧ (crawl env st now t).2.2.callbacks = []
    ∧ (crawl env st now t).2.2.pageClosed = true := by
  have hnd : ¬ t.maxDepth < t.currentDepth := Nat.not_lt.mpr hd
  have hens : ensureBrowser env.launchOk st = (true, st, 0, []) := by
    unfold ensureBrowser
    rw [if_pos hb]
  have hens2 : ensureBrowser env.launchOk { st with keptAliveInSeconds := 0 } =
      (true, { st with keptAliveInSeconds := 0 }, 0, []) := by
    unfold ensureBrowser
    simp [hb]
  have hsc : (scrape env st now url d).1 = Except.error CrawlErr.cachePutError
      ∧ (scrape env st now url d).2.2.pageClosed = true := by
    unfold scrape
    rw [hens]
    simp [hr, he, hp]
  have hcr : (crawl env st now t).1 = Except.error CrawlErr.cachePutError
      ∧ (crawl env st now t).2.2.callbacks = []
      ∧ (crawl env st now t).2.2.pageClosed = true := by
    unfold crawl
    rw [if_neg hnd]
    simp [ensureKeepAlive, hens2, hrt, het, hp, hct]
  exact ⟨hsc.1, hsc.2, hcr.1, hcr.2.1, hcr.2.2⟩

/-- Witness for C9's amended theorem with concrete failing collaborators. -/
theorem cache_put_failure_aborts_witness :
    (scrape putFailEnv demoState 0 "https://a.test" false).1 =
      Except.error CrawlErr.cachePutError
    ∧ (scrape putFailEnv demoState 0 "https://a.test" false).2.2.pageClosed = true
    ∧ (crawl putFailEnv demoState 0 demoTask).1 = Except.error CrawlErr.cachePutError
    ∧ (crawl putFailEnv demoState 0 demoTask).2.2.callbacks = []
    ∧ (crawl putFailEnv demoState 0 demoTask).2.2.pageClosed = true :=
  cache_put_failure_aborts putFailEnv demoState 0 "https://a.test"
    "<html><body><p>hello world</p></body></html>" "ARTICLE" false demoTask
    rfl (by decide) rfl rfl rfl rfl (by decide) (by decide)

/-- C9 counterexample: with every other collaborator succeeding, a failing
`CACHE.put` makes `scrape` throw instead of returning the extracted
artifact, and makes `crawl` throw before the callback task is enqueued. -/
theorem cache_put_failure_counterexample :
    (scrape putFailEnv demoState 0 "https://a.test" false).1 =
      Except.error CrawlErr.cachePutError
    ∧ (crawl putFailEnv demoState 0 demoTask).2.2.callbacks = [] :=
  ⟨rfl, by decide⟩

/-- C8 (code bug).  A successful crawl step produces the artifact (it is in
the cache afterwards) but enqueues `\x7bcallback, url\x7d` with no inline
markdown; the delivery worker then posts `body.markdown` — a field the
declared queue message type does not even have — with 3 transport retries
and performs no cache lookup, so the delivered body is `undefined` rather
than the artifact. -/
theorem callback_delivery_divergence :
    (crawl crawlOkEnv demoState 0 demoTask).2.2.callbacks =
      [⟨"https://cb.test", some "https://a.test", none⟩]
    ∧ cacheGet (crawl crawlOkEnv demoState 0 demoTask).2.1.cache 0
        "scrape:https://a.test" = some "ARTICLE"
    ∧ (postToCallback ⟨"https://cb.test", some "https://a.test", none⟩).1 =
        { url := "https://cb.test", body := none, retry := 3 }
    ∧ (postToCallback ⟨"https://cb.test", some "https://a.test", none⟩).2 = 0 := by
  decide

end Wingmark
